import Mathlib

/-!
Verification development for the cafes-with-wifi REST API.

The repository has two Flask applications exposing the same three HTTP
endpoints (GET /cafes, GET /cafe/<name>, POST /add_cafe) over a single
SQLite table `cafe`:

  * `cafe-api-sqlite3.py`    — raw `sqlite3` query execution (namespace `Sqlite3`)
  * `cafe-api-sqlalchemy.py` — `flask_sqlalchemy` ORM access (namespace `Alchemy`)

We embed the observable request/response behaviour of both variants.
JSON scalar values are modelled by `JVal`; the table state by `Store`
(ordered rows plus the auto-increment counter).  SQLite is dynamically
typed: booleans are bound as the integers 1/0 at insert time, and a raw
`SELECT` returns those integers, while the ORM's `Boolean` column type
converts them back to booleans on read and, at bind time, rejects any
scalar that is not `None`/`True`/`False`/0/1 with a `TypeError` at
flush (the raw sqlite3 variant binds any scalar as-is — see
`boolBindOk`).  The `UNIQUE` and `NOT NULL`
constraints of the DDL (identical in both files) are what raises
`IntegrityError` on insert.  Non-integrity persistence failures
(disk I/O, connection loss) are injected through an explicit `env`
parameter: `none` means the database operates normally, `some msg`
means the driver raised a non-integrity exception carrying text `msg`.
An exception uncaught by a Flask handler surfaces as an HTTP 500
response.
-/

/-- A scalar JSON value, as carried in request bodies and stored in the
SQLite table (SQLite is dynamically typed, so any scalar can sit in any
column). `jnull` doubles as SQL NULL and Python `None`. -/
inductive JVal where
  | jnull
  | jbool (b : Bool)
  | jstr (s : String)
  | jint (n : Int)
deriving DecidableEq, Repr

/-- Is the value a JSON boolean? -/
def JVal.isJBool : JVal → Bool
  | .jbool _ => true
  | _ => false

/-- Is the value a JSON string or null (the serialization the spec allows
for `seats` / `coffee_price`)? -/
def JVal.isJStrOrNull : JVal → Bool
  | .jstr _ => true
  | .jnull => true
  | _ => false

/-- A parsed JSON request body: an association list of key/value pairs
(Python dict; keys unique, lookup takes the first match). -/
abbrev ReqBody := List (String × JVal)

/-- Python `key in dict`. -/
def hasKey (b : ReqBody) (k : String) : Bool :=
  (List.find? (fun p => p.1 == k) b).isSome

/-- Python `dict.get(key)` with `None` (= SQL NULL) as default; for keys
guaranteed present this coincides with `dict[key]`. -/
def getVal (b : ReqBody) (k : String) : JVal :=
  match List.find? (fun p => p.1 == k) b with
  | some p => p.2
  | none => .jnull

/-- The eight required keys checked by both `add_cafe` handlers. -/
def requiredKeys : List String :=
  ["name", "map_url", "img_url", "location",
   "has_sockets", "has_toilet", "has_wifi", "can_take_calls"]

/-- `all(key in new_cafe for key in (...))` in both `add_cafe` handlers. -/
def hasAllRequired (b : ReqBody) : Bool :=
  requiredKeys.all (fun k => hasKey b k)

/-- One row of the `cafe` table.  `id` is the INTEGER PRIMARY KEY; the
remaining ten columns hold whatever scalar was bound at insert time. -/
structure Row where
  id : Nat
  name : JVal
  map_url : JVal
  img_url : JVal
  location : JVal
  has_sockets : JVal
  has_toilet : JVal
  has_wifi : JVal
  can_take_calls : JVal
  seats : JVal
  coffee_price : JVal
deriving DecidableEq, Repr

/-- The state of the `cafe` table: rows in rowid (insertion) order plus
the next id the INTEGER PRIMARY KEY will assign (no deletes exist, so
this is max id + 1, starting at 1 on the empty table). -/
structure Store where
  nextId : Nat
  rows : List Row
deriving DecidableEq, Repr

/-- The freshly created database: empty table, first id will be 1. -/
def store0 : Store := ⟨1, []⟩

/-- How a bound Python value is stored by SQLite: `True`/`False` become
the integers 1/0 (the sqlite3 driver adapts bool to int, and the ORM's
Boolean column binds the same way); other scalars are stored as-is. -/
def sqliteVal : JVal → JVal
  | .jbool b => .jint (if b then 1 else 0)
  | v => v

/-- Read conversion applied by the ORM's `Boolean` column type when a
row is loaded: the stored integer comes back as a Python bool
(0 ↦ False, nonzero ↦ True); NULL stays None. The raw sqlite3 variant
performs no such conversion. -/
def int_to_boolean : JVal → JVal
  | .jint n => .jbool (n != 0)
  | v => v

/-- The candidate row built from a validated request body by both
`add_cafe` handlers: the eight required values plus `.get('seats')` /
`.get('coffee_price')` (NULL when absent), bound through SQLite. -/
def mkRow (s : Store) (b : ReqBody) : Row :=
  { id := s.nextId
    name := sqliteVal (getVal b "name")
    map_url := sqliteVal (getVal b "map_url")
    img_url := sqliteVal (getVal b "img_url")
    location := sqliteVal (getVal b "location")
    has_sockets := sqliteVal (getVal b "has_sockets")
    has_toilet := sqliteVal (getVal b "has_toilet")
    has_wifi := sqliteVal (getVal b "has_wifi")
    can_take_calls := sqliteVal (getVal b "can_take_calls")
    seats := sqliteVal (getVal b "seats")
    coffee_price := sqliteVal (getVal b "coffee_price") }

/-- A required (NOT NULL) column of the candidate row is NULL. -/
def requiredNull (r : Row) : Bool :=
  r.name == .jnull || r.map_url == .jnull || r.img_url == .jnull ||
  r.location == .jnull || r.has_sockets == .jnull || r.has_toilet == .jnull ||
  r.has_wifi == .jnull || r.can_take_calls == .jnull

/-- Some live row already has this exact stored `name` (the UNIQUE
constraint compares stored values exactly, hence case-sensitively). -/
def nameExists (s : Store) (n : JVal) : Bool :=
  s.rows.any (fun row => row.name == n)

/-- The insert violates the DDL's constraints (NOT NULL on a required
column, or UNIQUE on `name`): SQLite raises `IntegrityError`. -/
def integrityViolation (s : Store) (r : Row) : Bool :=
  requiredNull r || nameExists s r.name

/-- Committing the insert: the row is appended (rowid order) and the
auto-increment counter advances. -/
def insertRow (s : Store) (r : Row) : Store :=
  ⟨s.nextId + 1, s.rows ++ [r]⟩

/-- An HTTP response body, at the granularity the contract fixes:
a JSON array of flat objects, a flat JSON object, or a Flask `abort`
error page carrying a description string. -/
inductive Body where
  | jarr (rows : List (List (String × JVal)))
  | jobj (fields : List (String × JVal))
  | err (description : String)
deriving DecidableEq, Repr

/-- The shape of a body: array of objects with these key lists, object
with these keys, or an error page (description text abstracted away). -/
inductive BodyShape where
  | sarr (keys : List (List String))
  | sobj (keys : List String)
  | serr
deriving DecidableEq, Repr

/-- Forget everything but the structure of a body. -/
def Body.shape : Body → BodyShape
  | .jarr rows => .sarr (rows.map (fun o => o.map Prod.fst))
  | .jobj fields => .sobj (fields.map Prod.fst)
  | .err _ => .serr

/-- An HTTP response: status code and body. -/
structure Resp where
  status : Nat
  body : Body
deriving DecidableEq, Repr

/-- A request to one of the three endpoints. -/
inductive Request where
  | list
  | lookup (name : String)
  | create (body : ReqBody)

namespace Sqlite3

/-- `dict(row)` on a `SELECT *` row: the eleven columns in DDL order,
with the raw stored values (booleans therefore appear as 1/0). -/
def rowDict (r : Row) : List (String × JVal) :=
  [("id", .jint r.id), ("name", r.name), ("map_url", r.map_url),
   ("img_url", r.img_url), ("location", r.location),
   ("has_sockets", r.has_sockets), ("has_toilet", r.has_toilet),
   ("has_wifi", r.has_wifi), ("can_take_calls", r.can_take_calls),
   ("seats", r.seats), ("coffee_price", r.coffee_price)]

/-- GET /cafes in `cafe-api-sqlite3.py`: `SELECT * FROM cafe`, convert
every row to a dict, jsonify the list.  Read-only: the store comes back
untouched. -/
def get_cafes (s : Store) : Resp × Store :=
  (⟨200, .jarr (s.rows.map rowDict)⟩, s)

/-- GET /cafe/<name> in `cafe-api-sqlite3.py`: `SELECT * FROM cafe
WHERE name = ?` with the path string bound, first row or 404 abort. -/
def get_cafe_by_name (s : Store) (name : String) : Resp × Store :=
  match s.rows.find? (fun r => r.name == .jstr name) with
  | none => (⟨404, .err "Cafe not found"⟩, s)
  | some r => (⟨200, .jobj (rowDict r)⟩, s)

/-- POST /add_cafe in `cafe-api-sqlite3.py`.  Missing required key ⇒
abort 400 before any store interaction.  The INSERT runs inside
`try ... except sqlite3.IntegrityError`, which aborts 400 with the fixed
duplicate-name description for any integrity violation; every other
driver exception (`env = some msg`) is uncaught and Flask answers 500.
On success commit, 201 with the success message. -/
def add_cafe (env : Option String) (s : Store) (b : ReqBody) : Resp × Store :=
  if ¬ hasAllRequired b then
    (⟨400, .err "Missing required fields"⟩, s)
  else
    match env with
    | some _ => (⟨500, .err "Internal Server Error"⟩, s)
    | none =>
      let r := mkRow s b
      if integrityViolation s r then
        (⟨400, .err "Cafe with this name already exists"⟩, s)
      else
        (⟨201, .jobj [("message", .jstr "Cafe added successfully")]⟩, insertRow s r)

/-- Dispatch a request to the raw-sqlite3 application's handlers. -/
def handle (env : Option String) (s : Store) : Request → Resp × Store
  | .list => get_cafes s
  | .lookup name => get_cafe_by_name s name
  | .create b => add_cafe env s b

end Sqlite3

/-- A value the ORM's `Boolean` column type accepts at bind time:
`None`, `True`, `False`, and the integers 0/1 (Python's
`value not in (True, False, None)` check, where `1 == True` and
`0 == False`).  Any other scalar raises `TypeError` at flush, before
the statement reaches the driver. -/
def boolBindOk : JVal → Bool
  | .jnull => true
  | .jbool _ => true
  | .jint 0 => true
  | .jint 1 => true
  | _ => false

/-- The flush-time bind check the ORM runs on the four `Boolean`
columns of the candidate Cafe.  The raw sqlite3 variant has no such
check: it binds any scalar as-is. -/
def bindCheckOk (b : ReqBody) : Bool :=
  boolBindOk (getVal b "has_sockets") && boolBindOk (getVal b "has_toilet") &&
  boolBindOk (getVal b "has_wifi") && boolBindOk (getVal b "can_take_calls")

namespace Alchemy

/-- The dictionary built field-by-field in `cafe-api-sqlalchemy.py`:
same eleven keys in the same order, but ORM attribute access runs the
`Boolean` columns through the read conversion. -/
def rowDict (r : Row) : List (String × JVal) :=
  [("id", .jint r.id), ("name", r.name), ("map_url", r.map_url),
   ("img_url", r.img_url), ("location", r.location),
   ("has_sockets", int_to_boolean r.has_sockets),
   ("has_toilet", int_to_boolean r.has_toilet),
   ("has_wifi", int_to_boolean r.has_wifi),
   ("can_take_calls", int_to_boolean r.can_take_calls),
   ("seats", r.seats), ("coffee_price", r.coffee_price)]

/-- GET /cafes in `cafe-api-sqlalchemy.py`: `Cafe.query.all()`, build
the dict list, jsonify. -/
def get_cafes (s : Store) : Resp × Store :=
  (⟨200, .jarr (s.rows.map rowDict)⟩, s)

/-- GET /cafe/<name> in `cafe-api-sqlalchemy.py`:
`Cafe.query.filter_by(name=name).first()`, 404 abort when absent. -/
def get_cafe_by_name (s : Store) (name : String) : Resp × Store :=
  match s.rows.find? (fun r => r.name == .jstr name) with
  | none => (⟨404, .err "Cafe not found"⟩, s)
  | some r => (⟨200, .jobj (rowDict r)⟩, s)

/-- POST /add_cafe in `cafe-api-sqlalchemy.py`.  Same validation guard;
the add/commit runs inside `try ... except Exception as e`, which
rolls back and aborts 400 with `"Error: " + str(e)` for every failure:
a driver/connection failure (`env = some msg`), the `Boolean` columns'
flush-time bind check rejecting a non-boolean amenity value
(`TypeError`, raised before any store interaction), or the DDL's
constraints (`IntegrityError`).  (The concrete `str(e)` of a
TypeError/IntegrityError is library text; we model a stable
abbreviation.) -/
def add_cafe (env : Option String) (s : Store) (b : ReqBody) : Resp × Store :=
  if ¬ hasAllRequired b then
    (⟨400, .err "Missing required fields"⟩, s)
  else
    match env with
    | some msg => (⟨400, .err ("Error: " ++ msg)⟩, s)
    | none =>
      if ¬ bindCheckOk b then
        (⟨400, .err ("Error: " ++ "Not a boolean value")⟩, s)
      else
        let r := mkRow s b
        if integrityViolation s r then
          (⟨400, .err ("Error: " ++ "(sqlite3.IntegrityError)")⟩, s)
        else
          (⟨201, .jobj [("message", .jstr "Cafe added successfully")]⟩, insertRow s r)

/-- Dispatch a request to the SQLAlchemy application's handlers. -/
def handle (env : Option String) (s : Store) : Request → Resp × Store
  | .list => get_cafes s
  | .lookup name => get_cafe_by_name s name
  | .create b => add_cafe env s b

end Alchemy

/-! ## Shared invariants and concrete data -/

/-- Is the value a JSON string? -/
def JVal.isJStr : JVal → Bool
  | .jstr _ => true
  | _ => false

/-- Is the value a stored SQLite boolean, i.e. the integer 0 or 1? -/
def isStoredBool : JVal → Bool
  | .jint 0 => true
  | .jint 1 => true
  | _ => false

/-- All live rows carry pairwise distinct `name` values. -/
def distinctNames (s : Store) : Prop :=
  (s.rows.map Row.name).Nodup

instance (s : Store) : Decidable (distinctNames s) := by
  unfold distinctNames; infer_instance

/-- Every live row has non-NULL values in all eight required columns. -/
def storeNonNull (s : Store) : Prop :=
  ∀ r ∈ s.rows, requiredNull r = false

instance (s : Store) : Decidable (storeNonNull s) := by
  unfold storeNonNull; infer_instance

/-- A create request is well typed per the data model of §3: strings for
the four string fields, JSON booleans for the four amenity flags, and a
string for `seats` / `coffee_price` when supplied. -/
def wellTyped (b : ReqBody) : Bool :=
  (getVal b "name").isJStr && (getVal b "map_url").isJStr &&
  (getVal b "img_url").isJStr && (getVal b "location").isJStr &&
  (getVal b "has_sockets").isJBool && (getVal b "has_toilet").isJBool &&
  (getVal b "has_wifi").isJBool && (getVal b "can_take_calls").isJBool &&
  (getVal b "seats").isJStrOrNull && (getVal b "coffee_price").isJStrOrNull

/-- A stored row is well formed: strings in the string columns, stored
booleans (0/1) in the flag columns, string-or-NULL in the two optional
columns.  Every row the API itself inserts from a well-typed request is
of this form. -/
def wellFormedRow (r : Row) : Bool :=
  r.name.isJStr && r.map_url.isJStr && r.img_url.isJStr && r.location.isJStr &&
  isStoredBool r.has_sockets && isStoredBool r.has_toilet &&
  isStoredBool r.has_wifi && isStoredBool r.can_take_calls &&
  r.seats.isJStrOrNull && r.coffee_price.isJStrOrNull

/-- Every live row is well formed. -/
def wellFormedStore (s : Store) : Prop :=
  ∀ r ∈ s.rows, wellFormedRow r = true

instance (s : Store) : Decidable (wellFormedStore s) := by
  unfold wellFormedStore; infer_instance

/-- The column names of the `cafe` table, in serialization order. -/
def fieldNames : List String :=
  ["id", "name", "map_url", "img_url", "location",
   "has_sockets", "has_toilet", "has_wifi", "can_take_calls",
   "seats", "coffee_price"]

/-- The end-to-end example body of §8: a valid create request with
`seats` and `coffee_price` omitted. -/
def bodyBB : ReqBody :=
  [("name", .jstr "Blue Bottle"), ("map_url", .jstr "http://m"),
   ("img_url", .jstr "http://i"), ("location", .jstr "SF"),
   ("has_sockets", .jbool true), ("has_toilet", .jbool true),
   ("has_wifi", .jbool false), ("can_take_calls", .jbool false)]

/-- The store after creating the §8 example cafe on the empty database. -/
def st1 : Store := (Sqlite3.add_cafe none store0 bodyBB).2

/-- The row that create stores for the §8 example body. -/
def rowBB : Row := mkRow store0 bodyBB

/-! ## Helper lemmas -/

theorem sqliteVal_of_isJStr {v : JVal} (h : v.isJStr = true) : sqliteVal v = v := by
  cases v <;> simp_all [JVal.isJStr, sqliteVal]

theorem sqliteVal_of_isJStrOrNull {v : JVal} (h : v.isJStrOrNull = true) :
    sqliteVal v = v := by
  cases v <;> simp_all [JVal.isJStrOrNull, sqliteVal]

theorem int_to_boolean_sqliteVal_of_isJBool {v : JVal} (h : v.isJBool = true) :
    int_to_boolean (sqliteVal v) = v := by
  cases v with
  | jbool b => cases b <;> simp [sqliteVal, int_to_boolean]
  | _ => simp_all [JVal.isJBool]

/-- A JSON boolean passes the ORM's flush-time Boolean bind check. -/
theorem boolBindOk_of_isJBool {v : JVal} (h : v.isJBool = true) :
    boolBindOk v = true := by
  cases v <;> simp_all [JVal.isJBool, boolBindOk]

theorem isJStr_ne_jnull {v : JVal} (h : v.isJStr = true) : (v == JVal.jnull) = false := by
  cases v <;> simp_all [JVal.isJStr]

theorem isJBool_sqliteVal_ne_jnull {v : JVal} (h : v.isJBool = true) :
    (sqliteVal v == JVal.jnull) = false := by
  cases v <;> simp_all [JVal.isJBool, sqliteVal]

/-- A well-typed request builds a candidate row with no NULL in any
required column. -/
theorem wellTyped_requiredNull {s : Store} {b : ReqBody} (h : wellTyped b = true) :
    requiredNull (mkRow s b) = false := by
  unfold wellTyped at h
  simp only [Bool.and_eq_true] at h
  obtain ⟨⟨⟨⟨⟨⟨⟨⟨⟨h1, h2⟩, h3⟩, h4⟩, h5⟩, h6⟩, h7⟩, h8⟩, _⟩, _⟩ := h
  unfold requiredNull mkRow
  simp only [Bool.or_eq_false_iff]
  refine ⟨⟨⟨⟨⟨⟨⟨?_, ?_⟩, ?_⟩, ?_⟩, ?_⟩, ?_⟩, ?_⟩, ?_⟩
  · rw [sqliteVal_of_isJStr h1]; exact isJStr_ne_jnull h1
  · rw [sqliteVal_of_isJStr h2]; exact isJStr_ne_jnull h2
  · rw [sqliteVal_of_isJStr h3]; exact isJStr_ne_jnull h3
  · rw [sqliteVal_of_isJStr h4]; exact isJStr_ne_jnull h4
  · exact isJBool_sqliteVal_ne_jnull h5
  · exact isJBool_sqliteVal_ne_jnull h6
  · exact isJBool_sqliteVal_ne_jnull h7
  · exact isJBool_sqliteVal_ne_jnull h8

/-! ## Claim theorems -/

/-- Claim C9: for every store state, GET /cafes returns HTTP 200 with a
JSON array containing one serialized object per Cafe row, in both
variants; in particular on the empty store it returns status 200 with
the empty JSON array, never an error. -/
theorem c9_list_returns_all_rows (s : Store) :
    Sqlite3.get_cafes s = (⟨200, .jarr (s.rows.map Sqlite3.rowDict)⟩, s) ∧
    Alchemy.get_cafes s = (⟨200, .jarr (s.rows.map Alchemy.rowDict)⟩, s) ∧
    ((s.rows.map Sqlite3.rowDict).length = s.rows.length ∧
     (s.rows.map Alchemy.rowDict).length = s.rows.length) ∧
    Sqlite3.get_cafes store0 = (⟨200, .jarr []⟩, store0) ∧
    Alchemy.get_cafes store0 = (⟨200, .jarr []⟩, store0) := by
  refine ⟨rfl, rfl, ⟨?_, ?_⟩, rfl, rfl⟩ <;> simp

/-- Claim C10: the list and lookup operations of both variants are
read-only — for every store state and every name they return the store
exactly as it was. -/
theorem c10_reads_leave_store_unchanged (s : Store) (name : String) :
    (Sqlite3.get_cafes s).2 = s ∧ (Alchemy.get_cafes s).2 = s ∧
    (Sqlite3.get_cafe_by_name s name).2 = s ∧
    (Alchemy.get_cafe_by_name s name).2 = s := by
  refine ⟨rfl, rfl, ?_, ?_⟩
  · unfold Sqlite3.get_cafe_by_name
    split <;> rfl
  · unfold Alchemy.get_cafe_by_name
    split <;> rfl

/-- Claim C7: GET /cafe/<name> returns HTTP 404 with description
"Cafe not found" when no row's name matches the path string, and
HTTP 200 with the single matching Cafe serialized as a JSON object when
one does, in both variants. -/
theorem c7_lookup_found_or_404 (s : Store) (name : String) :
    (s.rows.find? (fun r => r.name == .jstr name) = none →
      Sqlite3.get_cafe_by_name s name = (⟨404, .err "Cafe not found"⟩, s) ∧
      Alchemy.get_cafe_by_name s name = (⟨404, .err "Cafe not found"⟩, s)) ∧
    (∀ r, s.rows.find? (fun r => r.name == .jstr name) = some r →
      Sqlite3.get_cafe_by_name s name = (⟨200, .jobj (Sqlite3.rowDict r)⟩, s) ∧
      Alchemy.get_cafe_by_name s name = (⟨200, .jobj (Alchemy.rowDict r)⟩, s)) := by
  constructor
  · intro h
    constructor
    · unfold Sqlite3.get_cafe_by_name
      rw [h]
    · unfold Alchemy.get_cafe_by_name
      rw [h]
  · intro r h
    constructor
    · unfold Sqlite3.get_cafe_by_name
      rw [h]
    · unfold Alchemy.get_cafe_by_name
      rw [h]

/-- Witness for C7: on the empty store the lookup of "Blue Bottle" is a
404, and on the store holding the §8 example row it is a 200 with that
row's serialization. -/
theorem c7_lookup_found_or_404_witness :
    (Sqlite3.get_cafe_by_name store0 "Blue Bottle" =
       (⟨404, .err "Cafe not found"⟩, store0) ∧
     Alchemy.get_cafe_by_name store0 "Blue Bottle" =
       (⟨404, .err "Cafe not found"⟩, store0)) ∧
    (Sqlite3.get_cafe_by_name st1 "Blue Bottle" =
       (⟨200, .jobj (Sqlite3.rowDict rowBB)⟩, st1) ∧
     Alchemy.get_cafe_by_name st1 "Blue Bottle" =
       (⟨200, .jobj (Alchemy.rowDict rowBB)⟩, st1)) :=
  ⟨(c7_lookup_found_or_404 store0 "Blue Bottle").1 (by decide),
   (c7_lookup_found_or_404 st1 "Blue Bottle").2 rowBB (by decide)⟩

/-- Claim C2: a create request missing at least one of the eight
required keys fails with HTTP 400 and description "Missing required
fields" in both variants and leaves the store exactly as it was,
whatever the persistence layer would have done (`env` arbitrary, since
the guard short-circuits before any store interaction). -/
theorem c2_missing_key_rejected (env : Option String) (s : Store) (b : ReqBody)
    (h : hasAllRequired b = false) :
    Sqlite3.add_cafe env s b = (⟨400, .err "Missing required fields"⟩, s) ∧
    Alchemy.add_cafe env s b = (⟨400, .err "Missing required fields"⟩, s) := by
  unfold Sqlite3.add_cafe Alchemy.add_cafe
  simp [h]

/-- Witness for C2: the §8 example body with its `name` key removed is
rejected by both variants on the empty store. -/
theorem c2_missing_key_rejected_witness :
    hasAllRequired (bodyBB.drop 1) = false ∧
    Sqlite3.add_cafe none store0 (bodyBB.drop 1) =
      (⟨400, .err "Missing required fields"⟩, store0) ∧
    Alchemy.add_cafe none store0 (bodyBB.drop 1) =
      (⟨400, .err "Missing required fields"⟩, store0) :=
  ⟨by decide,
   (c2_missing_key_rejected none store0 (bodyBB.drop 1) (by decide)).1,
   (c2_missing_key_rejected none store0 (bodyBB.drop 1) (by decide)).2⟩

@[simp] theorem sqliteVal_jnull : sqliteVal .jnull = .jnull := rfl

@[simp] theorem sqliteVal_jstr (t : String) : sqliteVal (.jstr t) = .jstr t := rfl

@[simp] theorem sqliteVal_jint (n : Int) : sqliteVal (.jint n) = .jint n := rfl

@[simp] theorem sqliteVal_jbool (x : Bool) :
    sqliteVal (.jbool x) = .jint (if x then 1 else 0) := rfl

/-- An insert that passed the constraints keeps every required column of
every row non-NULL. -/
theorem storeNonNull_insertRow {s : Store} {r : Row} (hs : storeNonNull s)
    (hr : requiredNull r = false) : storeNonNull (insertRow s r) := by
  intro x hx
  simp only [insertRow, List.mem_append, List.mem_singleton] at hx
  rcases hx with hx | rfl
  · exact hs x hx
  · exact hr

theorem requiredNull_of_not_integrity {s : Store} {r : Row}
    (h : integrityViolation s r = false) : requiredNull r = false := by
  unfold integrityViolation at h
  exact (Bool.or_eq_false_iff.mp h).1

theorem nameExists_of_not_integrity {s : Store} {r : Row}
    (h : integrityViolation s r = false) : nameExists s r.name = false := by
  unfold integrityViolation at h
  exact (Bool.or_eq_false_iff.mp h).2

/-- Both create handlers preserve the all-required-columns-non-NULL
invariant, for every environment and every request body. -/
theorem add_cafe_preserves_nonNull (env : Option String) (s : Store) (b : ReqBody)
    (hs : storeNonNull s) :
    storeNonNull (Sqlite3.add_cafe env s b).2 ∧
    storeNonNull (Alchemy.add_cafe env s b).2 := by
  unfold Sqlite3.add_cafe Alchemy.add_cafe
  cases h1 : hasAllRequired b
  · simpa [h1] using And.intro hs hs
  · cases env
    · cases hb : bindCheckOk b <;> cases h2 : integrityViolation s (mkRow s b)
      · have := storeNonNull_insertRow hs (requiredNull_of_not_integrity h2)
        simpa [h1, hb, h2] using And.intro this hs
      · simpa [h1, hb, h2] using And.intro hs hs
      · have := storeNonNull_insertRow hs (requiredNull_of_not_integrity h2)
        simpa [h1, hb, h2] using And.intro this this
      · simpa [h1, hb, h2] using And.intro hs hs
    · simpa [h1] using And.intro hs hs

theorem not_mem_names_of_nameExists_false {s : Store} {n : JVal}
    (h : nameExists s n = false) : n ∉ s.rows.map Row.name := by
  unfold nameExists at h
  simp only [List.any_eq_false, beq_iff_eq] at h
  simp only [List.mem_map, not_exists, not_and]
  intro row hrow hname
  exact h row hrow hname

theorem mem_names_of_nameExists {s : Store} {n : JVal}
    (h : nameExists s n = true) : n ∈ s.rows.map Row.name := by
  unfold nameExists at h
  simp only [List.any_eq_true, beq_iff_eq] at h
  obtain ⟨row, hrow, heq⟩ := h
  exact List.mem_map.mpr ⟨row, hrow, heq⟩

/-- An insert that passed the UNIQUE constraint keeps all names
distinct. -/
theorem distinctNames_insertRow {s : Store} {r : Row} (hd : distinctNames s)
    (hne : nameExists s r.name = false) : distinctNames (insertRow s r) := by
  unfold distinctNames insertRow at *
  simp only [List.map_append, List.map_cons, List.map_nil, List.nodup_append,
    List.nodup_cons, List.not_mem_nil, not_false_iff, List.nodup_nil, true_and,
    and_true, List.disjoint_singleton]
  exact ⟨hd, by simpa using not_mem_names_of_nameExists_false hne⟩

/-- Both create handlers preserve name distinctness, for every
environment and every request body. -/
theorem add_cafe_preserves_distinct (env : Option String) (s : Store) (b : ReqBody)
    (hd : distinctNames s) :
    distinctNames (Sqlite3.add_cafe env s b).2 ∧
    distinctNames (Alchemy.add_cafe env s b).2 := by
  unfold Sqlite3.add_cafe Alchemy.add_cafe
  cases h1 : hasAllRequired b
  · simpa [h1] using And.intro hd hd
  · cases env
    · cases hb : bindCheckOk b <;> cases h2 : integrityViolation s (mkRow s b)
      · have := distinctNames_insertRow hd (nameExists_of_not_integrity h2)
        simpa [h1, hb, h2] using And.intro this hd
      · simpa [h1, hb, h2] using And.intro hd hd
      · have := distinctNames_insertRow hd (nameExists_of_not_integrity h2)
        simpa [h1, hb, h2] using And.intro this this
      · simpa [h1, hb, h2] using And.intro hd hd
    · simpa [h1] using And.intro hd hd

/-- A request binding some required key to null builds a candidate row
with a NULL required column. -/
theorem requiredNull_of_null_key {s : Store} {b : ReqBody}
    (hex : ∃ k ∈ requiredKeys, getVal b k = .jnull) :
    requiredNull (mkRow s b) = true := by
  obtain ⟨k, hk, hv⟩ := hex
  simp only [requiredKeys, List.mem_cons, List.not_mem_nil, or_false] at hk
  rcases hk with rfl | rfl | rfl | rfl | rfl | rfl | rfl | rfl <;>
    simp [requiredNull, mkRow, hv]

/-- Claim C6: a create request with all eight required keys present but
at least one bound to null is rejected with HTTP 400 by both variants
(the NOT NULL constraint raises IntegrityError) without creating a row,
and every row ever inserted by either variant has non-null values in
all eight required columns. -/
theorem c6_null_required_field_rejected (s : Store) (b : ReqBody)
    (hk : hasAllRequired b = true)
    (hex : ∃ k ∈ requiredKeys, getVal b k = .jnull) :
    Sqlite3.add_cafe none s b =
      (⟨400, .err "Cafe with this name already exists"⟩, s) ∧
    ((Alchemy.add_cafe none s b).1.status = 400 ∧
     (Alchemy.add_cafe none s b).2 = s) ∧
    (∀ env s' b', storeNonNull s' →
      storeNonNull (Sqlite3.add_cafe env s' b').2 ∧
      storeNonNull (Alchemy.add_cafe env s' b').2) := by
  have hnull := requiredNull_of_null_key (s := s) (b := b) hex
  have hI : integrityViolation s (mkRow s b) = true := by
    unfold integrityViolation
    simp [hnull]
  refine ⟨?_, ⟨?_, ?_⟩, fun env s' b' hs => add_cafe_preserves_nonNull env s' b' hs⟩
  · unfold Sqlite3.add_cafe
    simp [hk, hI]
  · unfold Alchemy.add_cafe
    cases hb : bindCheckOk b <;> simp [hk, hb, hI]
  · unfold Alchemy.add_cafe
    cases hb : bindCheckOk b <;> simp [hk, hb, hI]

/-- The §8 example body with its `name` key bound to JSON null instead
of a string. -/
def bodyNullName : ReqBody := ("name", JVal.jnull) :: bodyBB.drop 1

/-- Witness for C6: creating `bodyNullName` on the empty store is
rejected by both variants and the store stays empty. -/
theorem c6_null_required_field_rejected_witness :
    hasAllRequired bodyNullName = true ∧
    Sqlite3.add_cafe none store0 bodyNullName =
      (⟨400, .err "Cafe with this name already exists"⟩, store0) ∧
    (Alchemy.add_cafe none store0 bodyNullName).1.status = 400 ∧
    (Alchemy.add_cafe none store0 bodyNullName).2 = store0 :=
  ⟨by decide,
   (c6_null_required_field_rejected store0 bodyNullName (by decide)
     ⟨"name", by decide, by decide⟩).1,
   (c6_null_required_field_rejected store0 bodyNullName (by decide)
     ⟨"name", by decide, by decide⟩).2.1⟩

/-- Claim C1: on a store whose names are all distinct, a create request
whose `name` already exists (exact, case-sensitive match) fails with
HTTP 400 in both variants and leaves the store unchanged, so exactly
one row with that name remains; and every reachable store state keeps
all names distinct (both create handlers preserve distinctness for
every environment and body, and reads never write). -/
theorem c1_duplicate_name_conflict (s : Store) (b : ReqBody)
    (hd : distinctNames s) (hk : hasAllRequired b = true)
    (hex : nameExists s (sqliteVal (getVal b "name")) = true) :
    Sqlite3.add_cafe none s b =
      (⟨400, .err "Cafe with this name already exists"⟩, s) ∧
    ((Alchemy.add_cafe none s b).1.status = 400 ∧
     (Alchemy.add_cafe none s b).2 = s) ∧
    (s.rows.map Row.name).count (sqliteVal (getVal b "name")) = 1 ∧
    (∀ env s' b', distinctNames s' →
      distinctNames (Sqlite3.add_cafe env s' b').2 ∧
      distinctNames (Alchemy.add_cafe env s' b').2) := by
  have hI : integrityViolation s (mkRow s b) = true := by
    unfold integrityViolation
    have : nameExists s (mkRow s b).name = true := hex
    simp [this]
  refine ⟨?_, ⟨?_, ?_⟩, ?_, fun env s' b' hd' => add_cafe_preserves_distinct env s' b' hd'⟩
  · unfold Sqlite3.add_cafe
    simp [hk, hI]
  · unfold Alchemy.add_cafe
    cases hb : bindCheckOk b <;> simp [hk, hb, hI]
  · unfold Alchemy.add_cafe
    cases hb : bindCheckOk b <;> simp [hk, hb, hI]
  · exact List.count_eq_one_of_mem hd (mem_names_of_nameExists hex)

/-- Witness for C1: re-creating "Blue Bottle" on the store that already
holds it fails in both variants, the store is unchanged, and exactly
one "Blue Bottle" row exists. -/
theorem c1_duplicate_name_conflict_witness :
    Sqlite3.add_cafe none st1 bodyBB =
      (⟨400, .err "Cafe with this name already exists"⟩, st1) ∧
    (Alchemy.add_cafe none st1 bodyBB).1.status = 400 ∧
    (Alchemy.add_cafe none st1 bodyBB).2 = st1 ∧
    (st1.rows.map Row.name).count (sqliteVal (getVal bodyBB "name")) = 1 :=
  ⟨(c1_duplicate_name_conflict st1 bodyBB (by decide) (by decide) (by decide)).1,
   (c1_duplicate_name_conflict st1 bodyBB (by decide) (by decide) (by decide)).2.1.1,
   (c1_duplicate_name_conflict st1 bodyBB (by decide) (by decide) (by decide)).2.1.2,
   (c1_duplicate_name_conflict st1 bodyBB (by decide) (by decide) (by decide)).2.2.1⟩

/-- Field access on a JSON object body (null on non-objects). -/
def bodyField (bo : Body) (k : String) : JVal :=
  match bo with
  | .jobj fields => getVal fields k
  | _ => .jnull

/-- Claim C3 (amended): a well-typed create request whose name is new
succeeds with 201 and the success message in both variants; the
subsequent lookup by that name returns 200 with every supplied field
unchanged in the SQLAlchemy variant (seats/coffee_price null when
omitted), while in the raw sqlite3 variant the four amenity flags come
back as the stored integers 1/0 instead of the supplied booleans. -/
theorem c3_round_trip (s : Store) (b : ReqBody) (nm : String)
    (hk : hasAllRequired b = true)
    (hw : wellTyped b = true)
    (hnm : getVal b "name" = .jstr nm)
    (hex : nameExists s (.jstr nm) = false) :
    Sqlite3.add_cafe none s b =
      (⟨201, .jobj [("message", .jstr "Cafe added successfully")]⟩,
       insertRow s (mkRow s b)) ∧
    Alchemy.add_cafe none s b =
      (⟨201, .jobj [("message", .jstr "Cafe added successfully")]⟩,
       insertRow s (mkRow s b)) ∧
    Alchemy.get_cafe_by_name (insertRow s (mkRow s b)) nm =
      (⟨200, .jobj
        [("id", .jint s.nextId), ("name", .jstr nm),
         ("map_url", getVal b "map_url"), ("img_url", getVal b "img_url"),
         ("location", getVal b "location"),
         ("has_sockets", getVal b "has_sockets"),
         ("has_toilet", getVal b "has_toilet"),
         ("has_wifi", getVal b "has_wifi"),
         ("can_take_calls", getVal b "can_take_calls"),
         ("seats", getVal b "seats"),
         ("coffee_price", getVal b "coffee_price")]⟩,
       insertRow s (mkRow s b)) ∧
    Sqlite3.get_cafe_by_name (insertRow s (mkRow s b)) nm =
      (⟨200, .jobj
        [("id", .jint s.nextId), ("name", .jstr nm),
         ("map_url", getVal b "map_url"), ("img_url", getVal b "img_url"),
         ("location", getVal b "location"),
         ("has_sockets", sqliteVal (getVal b "has_sockets")),
         ("has_toilet", sqliteVal (getVal b "has_toilet")),
         ("has_wifi", sqliteVal (getVal b "has_wifi")),
         ("can_take_calls", sqliteVal (getVal b "can_take_calls")),
         ("seats", getVal b "seats"),
         ("coffee_price", getVal b "coffee_price")]⟩,
       insertRow s (mkRow s b)) := by
  have hw' := hw
  unfold wellTyped at hw'
  simp only [Bool.and_eq_true] at hw'
  obtain ⟨⟨⟨⟨⟨⟨⟨⟨⟨w1, w2⟩, w3⟩, w4⟩, w5⟩, w6⟩, w7⟩, w8⟩, w9⟩, w10⟩ := hw'
  have hb : bindCheckOk b = true := by
    unfold bindCheckOk
    simp [boolBindOk_of_isJBool w5, boolBindOk_of_isJBool w6,
      boolBindOk_of_isJBool w7, boolBindOk_of_isJBool w8]
  have hname : (mkRow s b).name = .jstr nm := by
    simp [mkRow, hnm]
  have hI : integrityViolation s (mkRow s b) = false := by
    unfold integrityViolation
    rw [wellTyped_requiredNull hw, hname]
    simp [hex]
  have hfindpre : s.rows.find? (fun r => r.name == .jstr nm) = none := by
    rw [List.find?_eq_none]
    intro x hx
    unfold nameExists at hex
    simp only [List.any_eq_false, beq_iff_eq] at hex
    simp [hex x hx]
  have hfind : (insertRow s (mkRow s b)).rows.find?
      (fun r => r.name == .jstr nm) = some (mkRow s b) := by
    unfold insertRow
    simp only [List.find?_append, hfindpre, Option.none_or]
    simp [hname]
  refine ⟨?_, ?_, ?_, ?_⟩
  · unfold Sqlite3.add_cafe
    simp [hk, hI]
  · unfold Alchemy.add_cafe
    simp [hk, hb, hI]
  · unfold Alchemy.get_cafe_by_name
    rw [hfind]
    simp [Alchemy.rowDict, mkRow, hnm, sqliteVal_of_isJStr w2,
      sqliteVal_of_isJStr w3, sqliteVal_of_isJStr w4,
      int_to_boolean_sqliteVal_of_isJBool w5,
      int_to_boolean_sqliteVal_of_isJBool w6,
      int_to_boolean_sqliteVal_of_isJBool w7,
      int_to_boolean_sqliteVal_of_isJBool w8,
      sqliteVal_of_isJStrOrNull w9, sqliteVal_of_isJStrOrNull w10]
  · unfold Sqlite3.get_cafe_by_name
    rw [hfind]
    simp [Sqlite3.rowDict, mkRow, hnm, sqliteVal_of_isJStr w2,
      sqliteVal_of_isJStr w3, sqliteVal_of_isJStr w4,
      sqliteVal_of_isJStrOrNull w9, sqliteVal_of_isJStrOrNull w10]

/-- Witness for C3 (amended): the §8 example round-trips on the empty
store; the ORM variant returns the supplied boolean, the raw variant
the stored integer. -/
theorem c3_round_trip_witness :
    Sqlite3.add_cafe none store0 bodyBB =
      (⟨201, .jobj [("message", .jstr "Cafe added successfully")]⟩,
       insertRow store0 (mkRow store0 bodyBB)) ∧
    Alchemy.get_cafe_by_name (insertRow store0 (mkRow store0 bodyBB)) "Blue Bottle" =
      (⟨200, .jobj
        [("id", .jint 1), ("name", .jstr "Blue Bottle"),
         ("map_url", getVal bodyBB "map_url"), ("img_url", getVal bodyBB "img_url"),
         ("location", getVal bodyBB "location"),
         ("has_sockets", getVal bodyBB "has_sockets"),
         ("has_toilet", getVal bodyBB "has_toilet"),
         ("has_wifi", getVal bodyBB "has_wifi"),
         ("can_take_calls", getVal bodyBB "can_take_calls"),
         ("seats", getVal bodyBB "seats"),
         ("coffee_price", getVal bodyBB "coffee_price")]⟩,
       insertRow store0 (mkRow store0 bodyBB)) :=
  ⟨(c3_round_trip store0 bodyBB "Blue Bottle"
      (by decide) (by decide) (by decide) (by decide)).1,
   (c3_round_trip store0 bodyBB "Blue Bottle"
      (by decide) (by decide) (by decide) (by decide)).2.2.1⟩

/-- Counterexample for C3 as stated: the §8 example create succeeds on
the raw sqlite3 variant, `has_wifi` was supplied as the JSON boolean
false, but the subsequent lookup returns the JSON integer 0 for it —
not the supplied value. -/
theorem c3_round_trip_counterexample :
    (Sqlite3.add_cafe none store0 bodyBB).1.status = 201 ∧
    getVal bodyBB "has_wifi" = .jbool false ∧
    bodyField (Sqlite3.get_cafe_by_name st1 "Blue Bottle").1.body "has_wifi" =
      .jint 0 ∧
    JVal.jint 0 ≠ JVal.jbool false := by
  refine ⟨by decide, by decide, by decide, by decide⟩

/-- The ORM read conversion turns a stored 0/1 flag into a JSON
boolean. -/
theorem int_to_boolean_isJBool {v : JVal} (h : isStoredBool v = true) :
    (int_to_boolean v).isJBool = true := by
  cases v <;> simp_all [isStoredBool, int_to_boolean, JVal.isJBool]

/-- Both serializations expose exactly the eleven column names, in DDL
order. -/
theorem rowDict_keys (r : Row) :
    (Sqlite3.rowDict r).map Prod.fst = fieldNames ∧
    (Alchemy.rowDict r).map Prod.fst = fieldNames := by
  simp [Sqlite3.rowDict, Alchemy.rowDict, fieldNames]

/-- Claim C8 (amended): every Cafe JSON object produced by the list and
lookup operations has exactly the eleven fields of §3 in both variants;
on a well-formed store the SQLAlchemy variant serializes the four
amenity flags as JSON booleans, while the raw sqlite3 variant
serializes them as the stored integers 1/0; `seats`/`coffee_price` are
a JSON string or null in both. -/
theorem c8_serialized_object_fields (s : Store) (h : wellFormedStore s) :
    (Sqlite3.get_cafes s).1.body = .jarr (s.rows.map Sqlite3.rowDict) ∧
    (Alchemy.get_cafes s).1.body = .jarr (s.rows.map Alchemy.rowDict) ∧
    (∀ nm r, s.rows.find? (fun x => x.name == .jstr nm) = some r →
      (Sqlite3.get_cafe_by_name s nm).1.body = .jobj (Sqlite3.rowDict r) ∧
      (Alchemy.get_cafe_by_name s nm).1.body = .jobj (Alchemy.rowDict r)) ∧
    ∀ r ∈ s.rows,
      (Sqlite3.rowDict r).map Prod.fst = fieldNames ∧
      (Alchemy.rowDict r).map Prod.fst = fieldNames ∧
      ((getVal (Alchemy.rowDict r) "has_sockets").isJBool = true ∧
       (getVal (Alchemy.rowDict r) "has_toilet").isJBool = true ∧
       (getVal (Alchemy.rowDict r) "has_wifi").isJBool = true ∧
       (getVal (Alchemy.rowDict r) "can_take_calls").isJBool = true) ∧
      (isStoredBool (getVal (Sqlite3.rowDict r) "has_sockets") = true ∧
       isStoredBool (getVal (Sqlite3.rowDict r) "has_toilet") = true ∧
       isStoredBool (getVal (Sqlite3.rowDict r) "has_wifi") = true ∧
       isStoredBool (getVal (Sqlite3.rowDict r) "can_take_calls") = true) ∧
      ((getVal (Sqlite3.rowDict r) "seats").isJStrOrNull = true ∧
       (getVal (Sqlite3.rowDict r) "coffee_price").isJStrOrNull = true ∧
       (getVal (Alchemy.rowDict r) "seats").isJStrOrNull = true ∧
       (getVal (Alchemy.rowDict r) "coffee_price").isJStrOrNull = true) := by
  refine ⟨rfl, rfl, ?_, ?_⟩
  · intro nm r hf
    constructor
    · unfold Sqlite3.get_cafe_by_name
      rw [hf]
    · unfold Alchemy.get_cafe_by_name
      rw [hf]
  · intro r hr
    have hwf := h r hr
    unfold wellFormedRow at hwf
    simp only [Bool.and_eq_true] at hwf
    obtain ⟨⟨⟨⟨⟨⟨⟨⟨⟨_, _⟩, _⟩, _⟩, f5⟩, f6⟩, f7⟩, f8⟩, f9⟩, f10⟩ := hwf
    refine ⟨(rowDict_keys r).1, (rowDict_keys r).2, ⟨?_, ?_, ?_, ?_⟩,
      ⟨?_, ?_, ?_, ?_⟩, ⟨?_, ?_, ?_, ?_⟩⟩
    · simpa [Alchemy.rowDict, getVal] using int_to_boolean_isJBool f5
    · simpa [Alchemy.rowDict, getVal] using int_to_boolean_isJBool f6
    · simpa [Alchemy.rowDict, getVal] using int_to_boolean_isJBool f7
    · simpa [Alchemy.rowDict, getVal] using int_to_boolean_isJBool f8
    · simpa [Sqlite3.rowDict, getVal] using f5
    · simpa [Sqlite3.rowDict, getVal] using f6
    · simpa [Sqlite3.rowDict, getVal] using f7
    · simpa [Sqlite3.rowDict, getVal] using f8
    · simpa [Sqlite3.rowDict, getVal] using f9
    · simpa [Sqlite3.rowDict, getVal] using f10
    · simpa [Alchemy.rowDict, getVal] using f9
    · simpa [Alchemy.rowDict, getVal] using f10

/-- Witness for C8 (amended), on the reachable one-row store `st1`. -/
theorem c8_serialized_object_fields_witness :
    (Sqlite3.get_cafes st1).1.body = .jarr (st1.rows.map Sqlite3.rowDict) ∧
    (Sqlite3.rowDict rowBB).map Prod.fst = fieldNames ∧
    (getVal (Alchemy.rowDict rowBB) "has_wifi").isJBool = true ∧
    isStoredBool (getVal (Sqlite3.rowDict rowBB) "has_wifi") = true :=
  ⟨(c8_serialized_object_fields st1 (by decide)).1,
   ((c8_serialized_object_fields st1 (by decide)).2.2.2 rowBB (by decide)).1,
   ((c8_serialized_object_fields st1 (by decide)).2.2.2 rowBB (by decide)).2.2.1.2.2.1,
   ((c8_serialized_object_fields st1 (by decide)).2.2.2 rowBB (by decide)).2.2.2.1.2.2.1⟩

/-- Counterexample for C8 as stated: on the reachable store `st1`
(created through the API itself), the raw sqlite3 list operation
serializes `has_sockets` as the JSON integer 1 and `has_wifi` as the
JSON integer 0 — not as JSON booleans. -/
theorem c8_serialized_object_fields_counterexample :
    (Sqlite3.get_cafes st1).1.body =
      .jarr [[("id", .jint 1), ("name", .jstr "Blue Bottle"),
              ("map_url", .jstr "http://m"), ("img_url", .jstr "http://i"),
              ("location", .jstr "SF"),
              ("has_sockets", .jint 1), ("has_toilet", .jint 1),
              ("has_wifi", .jint 0), ("can_take_calls", .jint 0),
              ("seats", .jnull), ("coffee_price", .jnull)]] ∧
    (JVal.jint 1).isJBool = false ∧ (JVal.jint 0).isJBool = false := by
  refine ⟨by decide, by decide, by decide⟩

/-- Claim C4 (amended): for a validated create request, the SQLAlchemy
variant catches every store-layer failure and translates it to HTTP 400
carrying the underlying error text ("Error: " ++ msg), and its handler
only ever answers 400 or 201; the raw sqlite3 variant translates
IntegrityError (conflict / constraint violation) to HTTP 400 but lets
every other store-layer failure propagate uncaught, which Flask
surfaces as HTTP 500. -/
theorem c4_store_failure_translation (s : Store) (b : ReqBody) (msg : String)
    (hk : hasAllRequired b = true) :
    Alchemy.add_cafe (some msg) s b = (⟨400, .err ("Error: " ++ msg)⟩, s) ∧
    (∀ env, (Alchemy.add_cafe env s b).1.status = 400 ∨
            (Alchemy.add_cafe env s b).1.status = 201) ∧
    (integrityViolation s (mkRow s b) = true →
      Sqlite3.add_cafe none s b =
        (⟨400, .err "Cafe with this name already exists"⟩, s)) ∧
    Sqlite3.add_cafe (some msg) s b =
      (⟨500, .err "Internal Server Error"⟩, s) := by
  refine ⟨?_, ?_, ?_, ?_⟩
  · unfold Alchemy.add_cafe
    simp [hk]
  · intro env
    unfold Alchemy.add_cafe
    cases env
    · cases hb : bindCheckOk b
      · left
        simp [hk, hb]
      · cases h2 : integrityViolation s (mkRow s b)
        · right
          simp [hk, hb, h2]
        · left
          simp [hk, hb, h2]
    · left
      simp [hk]
  · intro h2
    unfold Sqlite3.add_cafe
    simp [hk, h2]
  · unfold Sqlite3.add_cafe
    simp [hk]

/-- Witness for C4 (amended): on the one-row store, a duplicate create
gives 400 in both variants, while a simulated disk failure gives 400
with the error text in the ORM variant and 500 in the raw variant. -/
theorem c4_store_failure_translation_witness :
    Alchemy.add_cafe (some "disk I/O error") st1 bodyBB =
      (⟨400, .err ("Error: " ++ "disk I/O error")⟩, st1) ∧
    Sqlite3.add_cafe none st1 bodyBB =
      (⟨400, .err "Cafe with this name already exists"⟩, st1) ∧
    Sqlite3.add_cafe (some "disk I/O error") st1 bodyBB =
      (⟨500, .err "Internal Server Error"⟩, st1) :=
  ⟨(c4_store_failure_translation st1 bodyBB "disk I/O error" (by decide)).1,
   (c4_store_failure_translation st1 bodyBB "disk I/O error" (by decide)).2.2.1
     (by decide),
   (c4_store_failure_translation st1 bodyBB "disk I/O error" (by decide)).2.2.2⟩

/-- Counterexample for C4 as stated: the §8 example body passes
validation, yet a non-integrity store failure during its insert leaves
the raw sqlite3 handler's `except sqlite3.IntegrityError` clause
unmatched, so the exception propagates and Flask answers 500, not
400. -/
theorem c4_store_failure_translation_counterexample :
    hasAllRequired bodyBB = true ∧
    (Sqlite3.add_cafe (some "disk I/O error") store0 bodyBB).1.status = 500 ∧
    (Sqlite3.add_cafe (some "disk I/O error") store0 bodyBB).1.status ≠ 400 := by
  refine ⟨by decide, by decide, by decide⟩

/-- A request is within the ORM's bind discipline: any create body
binds only `Boolean`-acceptable values to the four amenity columns.
List and lookup requests bind nothing. -/
def reqBindOk : Request → Bool
  | .create b => bindCheckOk b
  | _ => true

/-- The §8 example body with `has_wifi` bound to the JSON string "yes"
instead of a boolean: SQLite's flexible typing stores it as-is, the
ORM's Boolean bind check rejects it at flush. -/
def bodyYes : ReqBody :=
  [("name", .jstr "Roast"), ("map_url", .jstr "http://m"),
   ("img_url", .jstr "http://i"), ("location", .jstr "SF"),
   ("has_sockets", .jbool true), ("has_toilet", .jbool true),
   ("has_wifi", .jstr "yes"), ("can_take_calls", .jbool false)]

/-- Claim C5 (amended): under normal store operation (no environmental
persistence failure) and for requests whose create bodies bind only
Boolean-acceptable amenity values, the two variants are observationally
equivalent at the HTTP boundary — same status code, same response body
shape, same resulting store — for every request to any of the three
endpoints against any store state.  (They diverge both under a
non-integrity store failure during create — 500 vs 400 — and on a
validated create with a non-boolean amenity value — 201 + insert in
the raw variant vs 400 + rollback in the ORM; see the
counterexample.) -/
theorem c5_variants_equivalent (s : Store) (req : Request)
    (hbind : reqBindOk req = true) :
    (Sqlite3.handle none s req).1.status = (Alchemy.handle none s req).1.status ∧
    (Sqlite3.handle none s req).1.body.shape =
      (Alchemy.handle none s req).1.body.shape ∧
    (Sqlite3.handle none s req).2 = (Alchemy.handle none s req).2 := by
  cases req with
  | list =>
    refine ⟨rfl, ?_, rfl⟩
    simp only [Sqlite3.handle, Alchemy.handle, Sqlite3.get_cafes,
      Alchemy.get_cafes, Body.shape, List.map_map]
    congr 1
  | lookup name =>
    simp only [Sqlite3.handle, Alchemy.handle]
    unfold Sqlite3.get_cafe_by_name Alchemy.get_cafe_by_name
    cases hf : s.rows.find? (fun r => r.name == .jstr name) with
    | none => exact ⟨rfl, rfl, rfl⟩
    | some r =>
      refine ⟨rfl, ?_, rfl⟩
      simp only [Body.shape]
      rw [(rowDict_keys r).1, (rowDict_keys r).2]
  | create b =>
    have hb : bindCheckOk b = true := hbind
    simp only [Sqlite3.handle, Alchemy.handle]
    unfold Sqlite3.add_cafe Alchemy.add_cafe
    cases h1 : hasAllRequired b
    · simp [h1]
    · cases h2 : integrityViolation s (mkRow s b)
      · simp [h1, hb, h2, Body.shape]
      · simp [h1, hb, h2, Body.shape]

/-- Witness for C5 (amended): the duplicate "Blue Bottle" create on the
one-row store — a body within the ORM's bind discipline — gets the same
status, body shape and resulting store from both variants. -/
theorem c5_variants_equivalent_witness :
    reqBindOk (.create bodyBB) = true ∧
    ((Sqlite3.handle none st1 (.create bodyBB)).1.status =
       (Alchemy.handle none st1 (.create bodyBB)).1.status ∧
     (Sqlite3.handle none st1 (.create bodyBB)).1.body.shape =
       (Alchemy.handle none st1 (.create bodyBB)).1.body.shape ∧
     (Sqlite3.handle none st1 (.create bodyBB)).2 =
       (Alchemy.handle none st1 (.create bodyBB)).2) :=
  ⟨by decide, c5_variants_equivalent st1 (.create bodyBB) (by decide)⟩

/-- Counterexample for C5 as stated, on both divergences.  First, the
same validated create against the same (empty) store answers 500 in the
raw sqlite3 variant but 400 in the SQLAlchemy variant when the store
layer fails with a non-integrity error.  Second, even with the store
operating normally, a validated create whose `has_wifi` is the string
"yes" answers 201 and inserts the row in the raw variant (SQLite binds
the scalar as-is) but 400 with the store unchanged in the ORM variant
(the Boolean bind check raises, caught by `except Exception`). -/
theorem c5_variants_equivalent_counterexample :
    (Sqlite3.handle (some "disk I/O error") store0 (.create bodyBB)).1.status = 500 ∧
    (Alchemy.handle (some "disk I/O error") store0 (.create bodyBB)).1.status = 400 ∧
    (Sqlite3.handle none store0 (.create bodyYes)).1.status = 201 ∧
    (Alchemy.handle none store0 (.create bodyYes)).1.status = 400 ∧
    (Sqlite3.handle none store0 (.create bodyYes)).2 ≠
      (Alchemy.handle none store0 (.create bodyYes)).2 := by
  refine ⟨by decide, by decide, by decide, by decide, by decide⟩
